import Mathlib

/-!
Shallow embedding of the realtime channel and connection state machines of
ably-python (files `ably/realtime/realtime_channel.py` and
`ably/realtime/connection.py`), together with theorems settling the frozen
claims about them.

Conventions of the embedding:
* Python enums become Lean inductives; attribute access on an enum class is
  fallible (`ConnectionState.member`), returning `AttributeError` for a name
  that is not a member, exactly as Python's `EnumMeta.__getattr__` does.
* Fallible code returns `Except PyError _`.
* Emission on an event emitter is recorded as a list of `Emission` values in
  the order the `_emit` calls occur; frames handed to the send path are
  recorded as a list of `ProtocolMsgOut` values.
* The pending-state timer is modelled by the number of armed timer objects
  held by the channel (`state_timer`), so that the at-most-one invariant is a
  real statement about the arming discipline rather than a typing artifact.
-/

namespace Ably

/-- The `ChannelState` enum of `realtime_channel.py` (a `str` enum). -/
inductive ChannelState
  | initialized
  | attaching
  | attached
  | detaching
  | detached
  | suspended
  | failed
deriving DecidableEq, Repr

/-- The string value of a `ChannelState` member, as declared in the source. -/
def ChannelState.value : ChannelState → String
  | .initialized => "initialized"
  | .attaching => "attaching"
  | .attached => "attached"
  | .detaching => "detaching"
  | .detached => "detached"
  | .suspended => "suspended"
  | .failed => "failed"

/-- The `ConnectionState` enum exactly as defined in `ably/realtime/connection.py`
(lines 11-16): it has the five members below and no others. -/
inductive ConnectionState
  | initialized
  | connecting
  | connected
  | closing
  | closed
deriving DecidableEq, Repr

/-- Errors raised by the embedded Python code. `ablyException` carries the
fields documented by the spec for service errors: message, status code and
service-specific code. `AblyException` itself lives in `ably/util/exceptions.py`,
which is not among the given sources; Modelled from the spec: "an error carrying
message, status code, and service-specific code". -/
inductive PyError
  | attributeError (name : String)
  | indexError
  | keyError (k : String)
  | valueError (msg : String)
  | typeError
  | ablyException (message : String) (statusCode : Nat) (code : Nat)
  | ablyAuthException (message : String) (statusCode : Nat) (code : Nat)
deriving DecidableEq, Repr

/-- Attribute access for a member name on the `ConnectionState` enum class of
`connection.py`. Looking up a name that is not one of the five declared
members raises `AttributeError`, as Python does for an enum class. -/
def ConnectionState.member : String → Except PyError ConnectionState
  | "INITIALIZED" => .ok .initialized
  | "CONNECTING" => .ok .connecting
  | "CONNECTED" => .ok .connected
  | "CLOSING" => .ok .closing
  | "CLOSED" => .ok .closed
  | s => .error (.attributeError s)

/-- The channel attach/mode flag bits of `realtime_channel.py` (`class Flag`). -/
def Flag.HAS_PRESENCE : Nat := 1
/-- Flag bit `HAS_BACKLOG = 1 << 1`. -/
def Flag.HAS_BACKLOG : Nat := 2
/-- Flag bit `RESUMED = 1 << 2`. -/
def Flag.RESUMED : Nat := 4
/-- Flag bit `TRANSIENT = 1 << 4`. -/
def Flag.TRANSIENT : Nat := 16
/-- Flag bit `ATTACH_RESUME = 1 << 5`. -/
def Flag.ATTACH_RESUME : Nat := 32

/-- `has_flag(message_flags, flag)` of `realtime_channel.py`:
`message_flags & flag > 0`. -/
def has_flag (message_flags : Nat) (flag : Nat) : Bool :=
  Nat.land message_flags flag > 0

/-- Protocol message action codes. `ProtocolMessageAction` is imported by
`realtime_channel.py` from `ably/realtime/connection.py` but is not defined in
the given sources; Modelled from the spec: "Action codes used by the core:
4=CONNECTED, 9=ERROR, ATTACH, ATTACHED, DETACH, DETACHED, MESSAGE (exact
integers for the latter five are a collaborator-defined enumeration)". Only
the identity of the constructor matters to the channel code. -/
inductive ProtocolMessageAction
  | connected
  | error
  | attach
  | attached
  | detach
  | detached
  | message
deriving DecidableEq, Repr

/-- The `AblyException` value carried as a state-change reason (message,
status code, service-specific code). Modelled from the spec: the class is in
`ably/util/exceptions.py`, absent from the given sources; spec section 7 says
failures carry "message, status code, and service-specific code". -/
structure AblyError where
  message : String
  statusCode : Nat
  code : Nat
deriving DecidableEq, Repr

/-- The `ChannelStateChange` dataclass of `realtime_channel.py`. `resumed` is
typed `bool` in the source but receives Python `None` on some paths
(`_on_message` passes `resumed=None` when the inbound frame has no flags), so
it is an `Option Bool` here, with `none` standing for `None`. -/
structure ChannelStateChange where
  previous : ChannelState
  current : ChannelState
  resumed : Option Bool
  reason : Option AblyError
deriving DecidableEq, Repr

/-- One `_emit` call on one of the channel's emitters. `toPublic` is
`self._emit(event, change)` on the channel's own (public) emitter,
`toInternal` is `self.__internal_state_emitter._emit(event, change)`, and
`toMessage` is `self.__message_emitter._emit(name, message)` for a decoded
data message. Recording emissions as data stands in for the `EventEmitter`
class of `ably/util/eventemitter.py`, absent from the given sources;
Modelled from the spec: "registry of listeners keyed by an optional event
label" with synchronous registration and emission. -/
inductive Emission
  | toPublic (event : String) (change : ChannelStateChange)
  | toInternal (event : String) (change : ChannelStateChange)
  | toMessage (name : String)
deriving DecidableEq, Repr

/-- An outbound protocol message as built by `_attach_impl` / `_detach_impl`:
action, channel name, optional `flags`, optional `channelSerial`. -/
structure ProtocolMsgOut where
  action : ProtocolMessageAction
  channel : String
  flags : Option Nat
  channelSerial : Option String
deriving DecidableEq, Repr

/-- The mutable state of a `RealtimeChannel` relevant to the claims: the
channel name, `self.__state`, the pending-state timer (`self.__state_timer`,
here the number of armed `Timer` objects the channel holds: `0` for `None`),
`self.__attach_resume` and `self.__channel_serial`. The `Timer` class lives in
`ably/util/helper.py`, absent from the given sources; Modelled from the spec:
"one optional pending-state timer" that is armed and cancelled. -/
structure Channel where
  name : String
  state : ChannelState
  state_timer : Nat
  attach_resume : Bool
  channel_serial : Option String
deriving DecidableEq, Repr

/-- Python truthiness of an `Optional[str]`: `None` and `""` are falsy. -/
def strTruthy : Option String → Bool
  | none => false
  | some s => s ≠ ""

/-- Python truthiness of an `Optional[int]` (used for `if flags:`): `None`
and `0` are falsy. -/
def natTruthy : Option Nat → Bool
  | none => false
  | some n => n ≠ 0

/-- Python truthiness of the `resumed` variable of `_on_message`
(`None`, `False` or `True`): only `True` is truthy. -/
def optBoolTruthy : Option Bool → Bool
  | some true => true
  | _ => false

/-- `RealtimeChannel.__clear_state_timer`: cancel the armed timer, if any,
and set `self.__state_timer = None`. -/
def clear_state_timer (c : Channel) : Channel :=
  { c with state_timer := 0 }

/-- `RealtimeChannel.__start_state_timer`: arm a new timer only when
`self.__state_timer` is `None` (`if not self.__state_timer:`). -/
def start_state_timer (c : Channel) : Channel :=
  if c.state_timer = 0 then { c with state_timer := 1 } else c

/-- `RealtimeChannel._notify_state(state, reason=None, resumed=False)`
(realtime_channel.py lines 362-384): clear the timer; return if the target
equals the current state; update `attach_resume` (RTL4j1) and
`channel_serial` (RTP5a1); build one `ChannelStateChange` whose `previous` is
the state before the call; set the state; emit it once on the public emitter
and once on the internal state emitter, keyed by the new state's value. -/
def notify_state (c : Channel) (state : ChannelState) (reason : Option AblyError)
    (resumed : Option Bool) : Channel × List Emission :=
  let c0 := clear_state_timer c
  if state = c0.state then (c0, [])
  else
    let ar1 := if state = ChannelState.attached then true else c0.attach_resume
    let ar2 := if state = ChannelState.detaching ∨ state = ChannelState.failed then
      false else ar1
    let serial := if state = ChannelState.detached ∨ state = ChannelState.suspended ∨
      state = ChannelState.failed then none else c0.channel_serial
    let sc : ChannelStateChange :=
      { previous := c0.state, current := state, resumed := resumed, reason := reason }
    let c1 : Channel := { c0 with
      state := state
      attach_resume := ar2
      channel_serial := serial }
    (c1, [Emission.toPublic state.value sc, Emission.toInternal state.value sc])

/-- `RealtimeChannel._attach_impl`: the ATTACH frame it hands to
`_send_message`, carrying the `ATTACH_RESUME` flag when `self.__attach_resume`
is set and `channelSerial` when `self.__channel_serial` is truthy. -/
def attach_impl (c : Channel) : ProtocolMsgOut :=
  { action := ProtocolMessageAction.attach
    channel := c.name
    flags := if c.attach_resume then some Flag.ATTACH_RESUME else none
    channelSerial := if strTruthy c.channel_serial then c.channel_serial else none }

/-- `RealtimeChannel._detach_impl`: the DETACH frame it hands to
`_send_message`. -/
def detach_impl (c : Channel) : ProtocolMsgOut :=
  { action := ProtocolMessageAction.detach
    channel := c.name
    flags := none
    channelSerial := none }

/-- The connection state read by `RealtimeChannel._check_pending_state` via
`self.__realtime.connection.connection_manager.state`. Modelled from the spec:
the owning client object (`self.__realtime`) and the `connection_manager` it
reaches are not among the given sources (the given `RealtimeConnection` class
has no `connection_manager` attribute); spec section 6 says the connection
collaborator "exposes `state`" to channels, so the value is supplied here as a
`ConnectionState` argument. -/
abbrev ConnectionManagerState := ConnectionState

/-- `RealtimeChannel._check_pending_state` (realtime_channel.py lines
389-401): if the connection is not CONNECTED, log and return; if the channel
is Attaching, arm the timer and send ATTACH; if Detaching, arm the timer and
send DETACH; otherwise do nothing. -/
def check_pending_state (c : Channel) (cm : ConnectionManagerState) :
    Channel × List ProtocolMsgOut :=
  if cm ≠ ConnectionState.connected then (c, [])
  else if c.state = ChannelState.attaching then
    (start_state_timer c, [attach_impl (start_state_timer c)])
  else if c.state = ChannelState.detaching then
    (start_state_timer c, [detach_impl (start_state_timer c)])
  else (c, [])

/-- `RealtimeChannel._request_state(state)`: `_notify_state(state)` followed
by `_check_pending_state()`. -/
def request_state (c : Channel) (cm : ConnectionManagerState) (state : ChannelState) :
    Channel × List Emission × List ProtocolMsgOut :=
  let n := notify_state c state none (some false)
  let p := check_pending_state n.1 cm
  (p.1, n.2, p.2)

/-- The timeout error `AblyException("Channel attach timed out", 408, 90007)`. -/
def attachTimeoutError : AblyError :=
  { message := "Channel attach timed out", statusCode := 408, code := 90007 }

/-- The timeout error `AblyException("Channel detach timed out", 408, 90007)`. -/
def detachTimeoutError : AblyError :=
  { message := "Channel detach timed out", statusCode := 408, code := 90007 }

/-- `RealtimeChannel.__timeout_pending_state` (realtime_channel.py lines
417-424): still Attaching means notify Suspended with the attach timeout
error; still Detaching means notify Attached with the detach timeout error;
otherwise run `_check_pending_state`. -/
def timeout_pending_state (c : Channel) (cm : ConnectionManagerState) :
    Channel × List Emission × List ProtocolMsgOut :=
  if c.state = ChannelState.attaching then
    let n := notify_state c ChannelState.suspended (some attachTimeoutError) (some false)
    (n.1, n.2, [])
  else if c.state = ChannelState.detaching then
    let n := notify_state c ChannelState.attached (some detachTimeoutError) (some false)
    (n.1, n.2, [])
  else
    let p := check_pending_state c cm
    (p.1, [], p.2)

/-- Expiry of an armed pending-state timer: the `on_timeout` closure of
`__start_state_timer` first sets `self.__state_timer = None`, then calls
`__timeout_pending_state`. -/
def timer_expire (c : Channel) (cm : ConnectionManagerState) :
    Channel × List Emission × List ProtocolMsgOut :=
  timeout_pending_state { c with state_timer := 0 } cm

/-- An inbound protocol message as read by `RealtimeChannel._on_message` via
`msg.get(...)`: every field access uses `.get`, so absent keys are `none`.
The `error` member, when present, is the dict whose `message`, `statusCode`
and `code` entries are passed positionally to `AblyException`; `messages` is
the encoded data-message array, represented by the list of the decoded
messages' `name` keys (`Message.from_encoded_array` lives in the REST layer,
absent from the given sources; Modelled from the spec: "decodes an encoded
data-message array into typed data messages with `.name` used as the dispatch
key"). -/
structure InMsg where
  action : Option ProtocolMessageAction
  channelSerial : Option String
  flags : Option Nat
  error : Option AblyError
  messages : List String
deriving DecidableEq, Repr

/-- The `resumed` local of `_on_message`: `None` unless the message's `flags`
member is truthy, in which case `has_flag(flags, Flag.RESUMED)`. -/
def msg_resumed (m : InMsg) : Option Bool :=
  if natTruthy m.flags then some (has_flag (m.flags.getD 0) Flag.RESUMED) else none

/-- The RTL4c1 step opening `_on_message`: `msg.get('channelSerial')` is
stored when truthy. -/
def serial_update (c : Channel) (m : InMsg) : Channel :=
  if strTruthy m.channelSerial then { c with channel_serial := m.channelSerial } else c

/-- `RealtimeChannel._on_message` (realtime_channel.py lines 318-355): first
store a truthy inbound `channelSerial` (RTL4c1, `serial_update`); then
dispatch on the action. ATTACHED while Attached with `resumed` falsy emits an
`update` event whose change has `previous` equal to `current`; ATTACHED while
Attaching notifies Attached with the frame's resumed value (the frame's error
is not passed on); DETACHED while Detaching notifies Detached; MESSAGE emits
each decoded message on the message emitter; everything else only logs. -/
def on_message (c : Channel) (m : InMsg) : Channel × List Emission :=
  match m.action with
  | some ProtocolMessageAction.attached =>
    if (serial_update c m).state = ChannelState.attached then
      if ¬ optBoolTruthy (msg_resumed m) then
        (serial_update c m, [Emission.toPublic "update"
          { previous := (serial_update c m).state, current := ChannelState.attached,
            resumed := msg_resumed m, reason := m.error }])
      else (serial_update c m, [])
    else if (serial_update c m).state = ChannelState.attaching then
      notify_state (serial_update c m) ChannelState.attached none (msg_resumed m)
    else (serial_update c m, [])
  | some ProtocolMessageAction.detached =>
    if (serial_update c m).state = ChannelState.detaching then
      notify_state (serial_update c m) ChannelState.detached none (some false)
    else (serial_update c m, [])
  | some ProtocolMessageAction.message =>
    (serial_update c m, m.messages.map Emission.toMessage)
  | _ => (serial_update c m, [])

/-- Python `raise state_change.reason` on an `Optional[AblyException]`:
raising an exception instance surfaces it; raising `None` is a `TypeError`
("exceptions must derive from BaseException"). -/
def raise_reason : Option AblyError → PyError
  | some e => PyError.ablyException e.message e.statusCode e.code
  | none => PyError.typeError

/-- Outcome of the synchronous part of `RealtimeChannel.attach` (everything
before `await self.__internal_state_emitter.once_async()`): either the RTL4a
early return, or the channel proceeds to the await with the recorded
transition effects. -/
inductive AttachBegun
  | noop
  | awaiting (c : Channel) (emissions : List Emission) (frames : List ProtocolMsgOut)
deriving DecidableEq, Repr

/-- `RealtimeChannel.attach` (realtime_channel.py lines 106-127) up to its
await point. `connState` is `self.__realtime.connection.state`, a member of
the `ConnectionState` enum of `connection.py`; `cm` is the connection state
read by `_check_pending_state`. Python evaluates the RTL4b list
`[ConnectionState.CONNECTING, ConnectionState.CONNECTED,
ConnectionState.DISCONNECTED]` eagerly, left to right, before the `not in`
test; each element is an attribute access on the enum class, via
`ConnectionState.member`. -/
def attach_begin (c : Channel) (connState : ConnectionState)
    (cm : ConnectionManagerState) : Except PyError AttachBegun := do
  if c.state = ChannelState.attached then
    return AttachBegun.noop
  let a1 ← ConnectionState.member "CONNECTING"
  let a2 ← ConnectionState.member "CONNECTED"
  let a3 ← ConnectionState.member "DISCONNECTED"
  if ¬ (connState = a1 ∨ connState = a2 ∨ connState = a3) then
    throw (PyError.ablyException
      (String.append "Unable to attach; channel state = " c.state.value) 400 90001)
  if c.state ≠ ChannelState.attaching then
    let r := request_state c cm ChannelState.attaching
    return AttachBegun.awaiting r.1 r.2.1 r.2.2
  return AttachBegun.awaiting c [] []

/-- The continuation of `RealtimeChannel.attach` after its await (lines
127-130): a state change landing in Suspended or Failed raises
`state_change.reason`; anything else returns. -/
def attach_settle (sc : ChannelStateChange) : Except PyError Unit :=
  if sc.current = ChannelState.suspended ∨ sc.current = ChannelState.failed then
    Except.error (raise_reason sc.reason)
  else Except.ok ()

/-- Outcome of the synchronous part of `RealtimeChannel.detach` (everything
before its awaits): the RTL5a early return, the direct Suspended-to-Detached
return, or proceeding to the awaits (`awaitsConnect` records whether RTL5h
first awaits `self.__realtime.connect()`). -/
inductive DetachBegun
  | noop
  | direct (c : Channel) (emissions : List Emission)
  | awaiting (c : Channel) (emissions : List Emission) (frames : List ProtocolMsgOut)
      (awaitsConnect : Bool)
deriving DecidableEq, Repr

/-- `RealtimeChannel.detach` (realtime_channel.py lines 162-188) up to its
await point. Python evaluates the RTL5g/RTL5b list
`[ConnectionState.CLOSING, ConnectionState.FAILED]` eagerly before the `in`
test; each element is an attribute access on the `ConnectionState` enum class
of `connection.py`, via `ConnectionState.member`. -/
def detach_begin (c : Channel) (connState : ConnectionState)
    (cm : ConnectionManagerState) : Except PyError DetachBegun := do
  let b1 ← ConnectionState.member "CLOSING"
  let b2 ← ConnectionState.member "FAILED"
  if connState = b1 ∨ connState = b2 then
    throw (PyError.ablyException
      (String.append "Unable to detach; channel state = " c.state.value) 400 90001)
  if c.state = ChannelState.initialized ∨ c.state = ChannelState.detached then
    return DetachBegun.noop
  if c.state = ChannelState.suspended then
    let n := notify_state c ChannelState.detached none (some false)
    return DetachBegun.direct n.1 n.2
  if c.state = ChannelState.failed then
    throw (PyError.ablyException "Unable to detach; channel state = failed" 90001 400)
  let r := request_state c cm ChannelState.detaching
  return DetachBegun.awaiting r.1 r.2.1 r.2.2 (connState = ConnectionState.connecting)

/-- The continuation of `RealtimeChannel.detach` after
`await self.__internal_state_emitter.once_async()` (lines 188-196): resulting
Detached returns; resulting Attaching raises the superseded-by-attach
conflict (`AblyException("Detach request superseded by a subsequent attach
request", 90000, 409)`); any other resulting state raises
`state_change.reason`. -/
def detach_settle (sc : ChannelStateChange) : Except PyError Unit :=
  if sc.current = ChannelState.detached then Except.ok ()
  else if sc.current = ChannelState.attaching then
    Except.error (PyError.ablyException
      "Detach request superseded by a subsequent attach request" 90000 409)
  else Except.error (raise_reason sc.reason)

/-- A Python value passed to the variadic `subscribe`, as far as the argument
parsing inspects it: a string (possibly empty, hence falsy), a callable
(functions and coroutine functions are always truthy), `None`, or an int
(truthy unless zero). -/
inductive PyVal
  | pyStr (s : String)
  | pyFunc (id : Nat)
  | pyNone
  | pyInt (n : Int)
deriving DecidableEq, Repr

/-- Python truthiness of a `PyVal`. -/
def pyTruthy : PyVal → Bool
  | PyVal.pyStr s => s ≠ ""
  | PyVal.pyFunc _ => true
  | PyVal.pyNone => false
  | PyVal.pyInt n => n ≠ 0

/-- `is_callable_or_coroutine` of `ably/util/helper.py`, absent from the
given sources; Modelled from the spec: "validates the listener is invocable
(plain callback or asynchronous callback)" — true exactly for callables. -/
def is_callable_or_coroutine : PyVal → Bool
  | PyVal.pyFunc _ => true
  | _ => false

/-- A successful parse of `subscribe`'s variadic arguments: a listener
registered under an event name (RTL7b) or as a catch-all (RTL7a). -/
inductive SubscribeReg
  | onEvent (event : String) (listener : PyVal)
  | catchAll (listener : PyVal)
deriving DecidableEq, Repr

/-- The argument parsing of `RealtimeChannel.subscribe(*args)`
(realtime_channel.py lines 239-250): `args[0]` and, in the string branch,
`args[1]` are plain index accesses on the argument tuple and raise
`IndexError` when absent; the `ValueError` branches test `not args[1]`
(truthiness), `is_callable_or_coroutine(args[1])`, and finally reject a first
argument that is neither a string nor callable. -/
def subscribe_args (args : List PyVal) : Except PyError SubscribeReg :=
  match args.get? 0 with
  | none => Except.error PyError.indexError
  | some a0 =>
    match a0 with
    | PyVal.pyStr ev =>
      match args.get? 1 with
      | none => Except.error PyError.indexError
      | some a1 =>
        if ¬ pyTruthy a1 then
          Except.error (PyError.valueError "channel.subscribe called without listener")
        else if ¬ is_callable_or_coroutine a1 then
          Except.error
            (PyError.valueError "subscribe listener must be function or coroutine function")
        else Except.ok (SubscribeReg.onEvent ev a1)
    | _ =>
      if is_callable_or_coroutine a0 then Except.ok (SubscribeReg.catchAll a0)
      else Except.error (PyError.valueError "invalid subscribe arguments")

/-- The state of a `RealtimeConnection` (connection.py lines 19-25) relevant
to `connect()`: `self.__state`, whether a pending `self.__connected_future`
is stored (`true` means a yet-unresolved `asyncio.Future` object), and the
number of `connect_impl` transport tasks created so far (each
`asyncio.create_task(self.connect_impl())` opens one transport). -/
structure Conn where
  state : ConnectionState
  connected_future : Bool
  transport_tasks : Nat
deriving DecidableEq, Repr

/-- What a `connect()` call does before it first suspends. -/
inductive ConnectStep
  | returnNow
  | fatalLogReturn
  | awaitExisting
  | startAndAwait
deriving DecidableEq, Repr

/-- The synchronous prefix of `RealtimeConnection.connect` (connection.py
lines 27-41): already CONNECTED returns at once; CONNECTING awaits the stored
future (or, if the future is inexplicably missing, logs fatal and returns);
otherwise set CONNECTING, create the future, create one `connect_impl` task,
and await the future. -/
def connect_begin (c : Conn) : Conn × ConnectStep :=
  if c.state = ConnectionState.connected then (c, ConnectStep.returnNow)
  else if c.state = ConnectionState.connecting then
    if c.connected_future then (c, ConnectStep.awaitExisting)
    else (c, ConnectStep.fatalLogReturn)
  else
    ({ state := ConnectionState.connecting
       connected_future := true
       transport_tasks := c.transport_tasks + 1 }, ConnectStep.startAndAwait)

/-- The single resolution of the shared connected-future, as delivered to
every caller awaiting it. -/
inductive ConnectOutcome
  | success
  | failure (message : String) (statusCode : Nat) (code : Nat)
deriving DecidableEq, Repr

/-- The `error` member of an inbound ERROR frame (`msg["error"]`), with the
fields `ws_read_loop` reads. -/
structure WsError where
  message : String
  statusCode : Nat
  code : Nat
  nonfatal : Bool
deriving DecidableEq, Repr

/-- One decoded inbound frame as seen by `ws_read_loop`: its `action` integer
and, optionally, its `error` member (`msg["error"]` raises `KeyError` when
absent). -/
structure WsMsg where
  action : Nat
  error : Option WsError
deriving DecidableEq, Repr

/-- One iteration of `RealtimeConnection.ws_read_loop` (connection.py lines
57-74) applied to a decoded frame: action 4 (CONNECTED) resolves the stored
future with success and clears it (logging when none is stored); action 9
(ERROR) with `error["nonfatal"] is False` fails the stored future with
`AblyAuthException(message, statusCode, code)` and clears it. The returned
`Option ConnectOutcome` is the resolution delivered to every awaiter of the
stored future, if one was resolved. -/
def ws_read_step (c : Conn) (m : WsMsg) : Except PyError (Conn × Option ConnectOutcome) := do
  if m.action = 4 then
    if c.connected_future then
      return ({ c with connected_future := false }, some ConnectOutcome.success)
    else
      return (c, none)
  else if m.action = 9 then
    match m.error with
    | none => throw (PyError.keyError "error")
    | some e =>
      if e.nonfatal = false then
        if c.connected_future then
          return ({ c with connected_future := false },
            some (ConnectOutcome.failure e.message e.statusCode e.code))
        else return (c, none)
      else return (c, none)
  else return (c, none)

/-- The continuation of `RealtimeConnection.connect` after its await, given
the outcome the awaited future resolved with: a caller in the create branch
sets the state to CONNECTED on success; a failing future raises the
`AblyAuthException` it was failed with in every awaiting caller; the other
steps never reach an await. -/
def connect_finish (c : Conn) (step : ConnectStep) (outcome : ConnectOutcome) :
    Conn × Option PyError :=
  match step, outcome with
  | ConnectStep.startAndAwait, ConnectOutcome.success =>
    ({ c with state := ConnectionState.connected }, none)
  | ConnectStep.startAndAwait, ConnectOutcome.failure msg sc code =>
    (c, some (PyError.ablyAuthException msg sc code))
  | ConnectStep.awaitExisting, ConnectOutcome.success => (c, none)
  | ConnectStep.awaitExisting, ConnectOutcome.failure msg sc code =>
    (c, some (PyError.ablyAuthException msg sc code))
  | _, _ => (c, none)

/-- A concrete channel value, used to instantiate theorems at sample inputs. -/
def chSample (s : ChannelState) : Channel :=
  { name := "ch", state := s, state_timer := 0, attach_resume := false, channel_serial := none }

/-- A concrete freshly created connection, as `RealtimeConnection.__init__`
leaves it: state INITIALIZED, no connected-future, no transport task. -/
def connSample : Conn :=
  { state := ConnectionState.initialized, connected_future := false, transport_tasks := 0 }

/-- The timer field after `_notify_state` is always cleared. -/
theorem notify_state_timer (c : Channel) (s : ChannelState) (reason : Option AblyError)
    (resumed : Option Bool) : (notify_state c s reason resumed).1.state_timer = 0 := by
  unfold notify_state clear_state_timer
  by_cases h : s = c.state <;> simp [h]

/-- Arming the timer keeps the armed count at most one. -/
theorem start_state_timer_le (c : Channel) (h : c.state_timer ≤ 1) :
    (start_state_timer c).state_timer ≤ 1 := by
  unfold start_state_timer
  by_cases h0 : c.state_timer = 0 <;> simp [h0, h]

/-- Effect of `_notify_state` on the state field and the emission list,
split on whether the target differs from the current state. -/
theorem notify_state_effect (c : Channel) (s : ChannelState)
    (reason : Option AblyError) (resumed : Option Bool) :
    (s ≠ c.state →
      (notify_state c s reason resumed).2 =
        [Emission.toPublic s.value
          { previous := c.state, current := s, resumed := resumed, reason := reason },
         Emission.toInternal s.value
          { previous := c.state, current := s, resumed := resumed, reason := reason }] ∧
      (notify_state c s reason resumed).1.state = s) ∧
    (s = c.state →
      (notify_state c s reason resumed).2 = [] ∧
      (notify_state c s reason resumed).1.state = c.state) := by
  constructor
  · intro h
    unfold notify_state clear_state_timer
    simp [h]
  · intro h
    unfold notify_state clear_state_timer
    simp [h]

/-- C1: a `_notify_state` call with a target state different from the current
state emits exactly one `ChannelStateChange`, once to the public emitter and
once to the internal state emitter, with `previous` the state before the call
and `current` the new state, and sets the state; a call with the target equal
to the current state emits nothing and leaves the state unchanged. -/
theorem notify_state_transition_emits (c : Channel) (s : ChannelState)
    (reason : Option AblyError) (resumed : Option Bool) :
    (s ≠ c.state →
      (notify_state c s reason resumed).2 =
        [Emission.toPublic s.value
          { previous := c.state, current := s, resumed := resumed, reason := reason },
         Emission.toInternal s.value
          { previous := c.state, current := s, resumed := resumed, reason := reason }] ∧
      (notify_state c s reason resumed).1.state = s) ∧
    (s = c.state →
      (notify_state c s reason resumed).2 = [] ∧
      (notify_state c s reason resumed).1.state = c.state) :=
  notify_state_effect c s reason resumed

/-- C1 witness: the transition of a fresh channel into Attaching. -/
theorem notify_state_transition_emits_witness :
    (notify_state (chSample ChannelState.initialized) ChannelState.attaching none (some false)).2 =
      [Emission.toPublic "attaching"
        { previous := ChannelState.initialized, current := ChannelState.attaching,
          resumed := some false, reason := none },
       Emission.toInternal "attaching"
        { previous := ChannelState.initialized, current := ChannelState.attaching,
          resumed := some false, reason := none }] ∧
    (notify_state (chSample ChannelState.initialized) ChannelState.attaching none
      (some false)).1.state = ChannelState.attaching ∧
    (notify_state (chSample ChannelState.attached) ChannelState.attached none (some false)).2 = [] := by
  refine ⟨?_, ?_, ?_⟩
  · exact ((notify_state_transition_emits (chSample ChannelState.initialized)
      ChannelState.attaching none (some false)).1 (by decide)).1
  · exact ((notify_state_transition_emits (chSample ChannelState.initialized)
      ChannelState.attaching none (some false)).1 (by decide)).2
  · exact ((notify_state_transition_emits (chSample ChannelState.attached)
      ChannelState.attached none (some false)).2 (by decide)).1

/-- C5: every transition-producing operation keeps at most one pending-state
timer armed; a transition (target differing from the current state) sets
`attach_resume` true exactly on entering Attached, false on entering
Detaching or Failed, and leaves it unchanged otherwise; and it clears
`channel_serial` exactly on entering Detached, Suspended or Failed. -/
theorem channel_transition_invariants (c : Channel) (s : ChannelState)
    (reason : Option AblyError) (resumed : Option Bool) (cm : ConnectionManagerState)
    (m : InMsg) (htimer : c.state_timer ≤ 1) :
    (notify_state c s reason resumed).1.state_timer ≤ 1 ∧
    (check_pending_state c cm).1.state_timer ≤ 1 ∧
    (request_state c cm s).1.state_timer ≤ 1 ∧
    (timeout_pending_state c cm).1.state_timer ≤ 1 ∧
    (on_message c m).1.state_timer ≤ 1 ∧
    (s ≠ c.state →
      (notify_state c s reason resumed).1.attach_resume =
        (if s = ChannelState.attached then true
         else if s = ChannelState.detaching ∨ s = ChannelState.failed then false
         else c.attach_resume) ∧
      (notify_state c s reason resumed).1.channel_serial =
        (if s = ChannelState.detached ∨ s = ChannelState.suspended ∨ s = ChannelState.failed
         then none else c.channel_serial)) := by
  have hnot : ∀ s r rs, (notify_state c s r rs).1.state_timer ≤ 1 := by
    intro s r rs
    rw [notify_state_timer]
    exact Nat.zero_le 1
  have hchk : ∀ (c1 : Channel) (cm1 : ConnectionManagerState), c1.state_timer ≤ 1 →
      (check_pending_state c1 cm1).1.state_timer ≤ 1 := by
    intro c1 cm1 h1
    unfold check_pending_state
    split
    · exact h1
    · split
      · exact start_state_timer_le c1 h1
      · split
        · exact start_state_timer_le c1 h1
        · exact h1
  refine ⟨hnot s reason resumed, hchk c cm htimer, ?_, ?_, ?_, ?_⟩
  · unfold request_state
    exact hchk _ cm (hnot s none (some false))
  · unfold timeout_pending_state
    split
    · exact hnot ChannelState.suspended (some attachTimeoutError) (some false)
    · split
      · exact hnot ChannelState.attached (some detachTimeoutError) (some false)
      · exact hchk c cm htimer
  · unfold on_message
    have hc0 : (serial_update c m).state_timer ≤ 1 := by
      unfold serial_update
      split
      · simpa using htimer
      · exact htimer
    split
    · split
      · split
        · exact hc0
        · exact hc0
      · split
        · rw [notify_state_timer]
          exact Nat.zero_le 1
        · exact hc0
    · split
      · rw [notify_state_timer]
        exact Nat.zero_le 1
      · exact hc0
    · exact hc0
    · exact hc0
  · intro hne
    constructor
    · unfold notify_state clear_state_timer
      simp only [hne]
      rcases s <;> rcases hsc : c.state <;> simp_all
    · unfold notify_state clear_state_timer
      simp only [hne]
      rcases s <;> rcases hsc : c.state <;> simp_all

/-- C5 witness: the invariants instantiated for a fresh channel moving into
Attached. -/
theorem channel_transition_invariants_witness :
    (notify_state (chSample ChannelState.attaching) ChannelState.attached none
      (some false)).1.state_timer ≤ 1 ∧
    (ChannelState.attached ≠ (chSample ChannelState.attaching).state →
      (notify_state (chSample ChannelState.attaching) ChannelState.attached none
        (some false)).1.attach_resume =
        (if ChannelState.attached = ChannelState.attached then true
         else if ChannelState.attached = ChannelState.detaching ∨
           ChannelState.attached = ChannelState.failed then false
         else (chSample ChannelState.attaching).attach_resume) ∧
      (notify_state (chSample ChannelState.attaching) ChannelState.attached none
        (some false)).1.channel_serial =
        (if ChannelState.attached = ChannelState.detached ∨
           ChannelState.attached = ChannelState.suspended ∨
           ChannelState.attached = ChannelState.failed
         then none else (chSample ChannelState.attaching).channel_serial)) := by
  have h := channel_transition_invariants (chSample ChannelState.attaching)
    ChannelState.attached none (some false) ConnectionState.connected
    { action := none, channelSerial := none, flags := none, error := none, messages := [] }
    (by decide)
  exact ⟨h.1, h.2.2.2.2.2⟩

/-- C6: on pending-state timer expiry, a channel still Attaching moves to
Suspended with the attach-timeout error as the reason of the emitted change
and no frame is sent then, nor by a pending-state check run from the
Suspended state afterwards; a channel still Detaching moves back to Attached
with the detach-timeout error; any other state re-runs `_check_pending_state`
instead of forcing a transition. -/
theorem timeout_pending_state_spec (c : Channel) (cm cm2 : ConnectionManagerState) :
    (c.state = ChannelState.attaching →
      (timeout_pending_state c cm).1.state = ChannelState.suspended ∧
      (timeout_pending_state c cm).2.1 =
        [Emission.toPublic "suspended"
          { previous := c.state, current := ChannelState.suspended,
            resumed := some false, reason := some attachTimeoutError },
         Emission.toInternal "suspended"
          { previous := c.state, current := ChannelState.suspended,
            resumed := some false, reason := some attachTimeoutError }] ∧
      (timeout_pending_state c cm).2.2 = [] ∧
      (check_pending_state (timeout_pending_state c cm).1 cm2).2 = []) ∧
    (c.state = ChannelState.detaching →
      (timeout_pending_state c cm).1.state = ChannelState.attached ∧
      (timeout_pending_state c cm).2.1 =
        [Emission.toPublic "attached"
          { previous := c.state, current := ChannelState.attached,
            resumed := some false, reason := some detachTimeoutError },
         Emission.toInternal "attached"
          { previous := c.state, current := ChannelState.attached,
            resumed := some false, reason := some detachTimeoutError }] ∧
      (timeout_pending_state c cm).2.2 = []) ∧
    (c.state ≠ ChannelState.attaching → c.state ≠ ChannelState.detaching →
      timeout_pending_state c cm =
        ((check_pending_state c cm).1, [], (check_pending_state c cm).2)) := by
  refine ⟨?_, ?_, ?_⟩
  · intro h
    have hn := (notify_state_effect c ChannelState.suspended
      (some attachTimeoutError) (some false)).1 (by rw [h]; decide)
    have hstate : (timeout_pending_state c cm).1.state = ChannelState.suspended := by
      unfold timeout_pending_state
      simp [h, hn.2]
    refine ⟨hstate, ?_, ?_, ?_⟩
    · unfold timeout_pending_state
      simp [h, hn.1, ChannelState.value]
    · unfold timeout_pending_state
      simp [h]
    · unfold check_pending_state
      simp [hstate]
  · intro h
    have hne : ChannelState.detaching ≠ ChannelState.attaching := by decide
    have hn := (notify_state_effect c ChannelState.attached
      (some detachTimeoutError) (some false)).1 (by rw [h]; decide)
    unfold timeout_pending_state
    rw [h]
    simp [hne, hn.1, hn.2, h, ChannelState.value]
  · intro h1 h2
    unfold timeout_pending_state
    simp [h1, h2]

/-- C6 witness: expiry while Attaching, checked on a concrete channel. -/
theorem timeout_pending_state_spec_witness :
    (timeout_pending_state (chSample ChannelState.attaching)
      ConnectionState.connected).1.state = ChannelState.suspended ∧
    (timeout_pending_state (chSample ChannelState.attaching)
      ConnectionState.connected).2.2 = [] ∧
    (timeout_pending_state (chSample ChannelState.detaching)
      ConnectionState.connected).1.state = ChannelState.attached := by
  refine ⟨?_, ?_, ?_⟩
  · exact ((timeout_pending_state_spec (chSample ChannelState.attaching)
      ConnectionState.connected ConnectionState.connected).1 (by decide)).1
  · exact ((timeout_pending_state_spec (chSample ChannelState.attaching)
      ConnectionState.connected ConnectionState.connected).1 (by decide)).2.2.1
  · exact ((timeout_pending_state_spec (chSample ChannelState.detaching)
      ConnectionState.connected ConnectionState.connected).2.1 (by decide)).1

/-- C7: `_check_pending_state` sends nothing and arms nothing when the
connection is not CONNECTED; when connected and the channel is Attaching it
arms the timer and sends exactly one ATTACH frame; when connected and
Detaching it arms the timer and sends exactly one DETACH frame; in every
other channel state it sends nothing. -/
theorem check_pending_state_spec (c : Channel) (cm : ConnectionManagerState) :
    (cm ≠ ConnectionState.connected → check_pending_state c cm = (c, [])) ∧
    (cm = ConnectionState.connected → c.state = ChannelState.attaching →
      (check_pending_state c cm).1 = start_state_timer c ∧
      (start_state_timer c).state_timer ≥ 1 ∧
      (check_pending_state c cm).2 = [attach_impl c] ∧
      (attach_impl c).action = ProtocolMessageAction.attach) ∧
    (cm = ConnectionState.connected → c.state = ChannelState.detaching →
      (check_pending_state c cm).1 = start_state_timer c ∧
      (start_state_timer c).state_timer ≥ 1 ∧
      (check_pending_state c cm).2 = [detach_impl c] ∧
      (detach_impl c).action = ProtocolMessageAction.detach) ∧
    (c.state ≠ ChannelState.attaching → c.state ≠ ChannelState.detaching →
      (check_pending_state c cm).2 = []) := by
  have harm : (start_state_timer c).state_timer ≥ 1 := by
    unfold start_state_timer
    by_cases h0 : c.state_timer = 0
    · simp [h0]
    · simp [h0]
      exact Nat.one_le_iff_ne_zero.mpr h0
  have himpl : attach_impl (start_state_timer c) = attach_impl c := by
    unfold attach_impl start_state_timer
    split <;> rfl
  have himpl2 : detach_impl (start_state_timer c) = detach_impl c := by
    unfold detach_impl start_state_timer
    split <;> rfl
  refine ⟨?_, ?_, ?_, ?_⟩
  · intro h
    unfold check_pending_state
    simp [h]
  · intro hcm hs
    unfold check_pending_state
    simp [hcm, hs, himpl, harm]
    rfl
  · intro hcm hs
    have hne : ChannelState.detaching ≠ ChannelState.attaching := by decide
    unfold check_pending_state
    rw [hs]
    simp [hcm, hne, himpl2, harm]
    rfl
  · intro h1 h2
    unfold check_pending_state
    split
    · rfl
    · simp [h1, h2]

/-- C7 witness: concrete channels in Attaching and Detaching with a connected
connection manager, and a disconnected case. -/
theorem check_pending_state_spec_witness :
    (check_pending_state (chSample ChannelState.attaching) ConnectionState.connected).2 =
      [attach_impl (chSample ChannelState.attaching)] ∧
    (check_pending_state (chSample ChannelState.detaching) ConnectionState.connected).2 =
      [detach_impl (chSample ChannelState.detaching)] ∧
    check_pending_state (chSample ChannelState.attaching) ConnectionState.closed =
      (chSample ChannelState.attaching, []) := by
  refine ⟨?_, ?_, ?_⟩
  · exact ((check_pending_state_spec (chSample ChannelState.attaching)
      ConnectionState.connected).2.1 rfl (by decide)).2.2.1
  · exact ((check_pending_state_spec (chSample ChannelState.detaching)
      ConnectionState.connected).2.2.1 rfl (by decide)).2.2.1
  · exact (check_pending_state_spec (chSample ChannelState.attaching)
      ConnectionState.closed).1 (by decide)

/-- C2: `connect()` on a CONNECTED connection returns at once, starting no
task and creating no future; on a CONNECTING connection with a stored future
it awaits that future without creating another task or future; otherwise it
moves to CONNECTING, creates exactly one future and one transport task, and
on resolution of the future sets CONNECTED; every caller awaiting the same
resolution observes the same success or failure; and two `connect()` calls
issued before the CONNECTED frame arrives start exactly one transport task,
the second joining the first attempt. -/
theorem connect_idempotent_spec (c : Conn) (o : ConnectOutcome) :
    (c.state = ConnectionState.connected → connect_begin c = (c, ConnectStep.returnNow)) ∧
    (c.state = ConnectionState.connecting → c.connected_future = true →
      connect_begin c = (c, ConnectStep.awaitExisting)) ∧
    (c.state ≠ ConnectionState.connected → c.state ≠ ConnectionState.connecting →
      connect_begin c =
        ({ state := ConnectionState.connecting, connected_future := true,
           transport_tasks := c.transport_tasks + 1 }, ConnectStep.startAndAwait) ∧
      (connect_finish (connect_begin c).1 ConnectStep.startAndAwait
        ConnectOutcome.success).1.state = ConnectionState.connected) ∧
    (∀ c2 : Conn, (connect_finish c2 ConnectStep.startAndAwait o).2 =
      (connect_finish c2 ConnectStep.awaitExisting o).2) ∧
    (c.state ≠ ConnectionState.connected → c.state ≠ ConnectionState.connecting →
      (connect_begin (connect_begin c).1).1.transport_tasks = c.transport_tasks + 1 ∧
      (connect_begin (connect_begin c).1).2 = ConnectStep.awaitExisting) := by
  have hbegin : ∀ h1 : c.state ≠ ConnectionState.connected, c.state ≠ ConnectionState.connecting →
      connect_begin c =
        ({ state := ConnectionState.connecting, connected_future := true,
           transport_tasks := c.transport_tasks + 1 }, ConnectStep.startAndAwait) := by
    intro h1 h2
    unfold connect_begin
    simp [h1, h2]
  refine ⟨?_, ?_, ?_, ?_, ?_⟩
  · intro h
    unfold connect_begin
    simp [h]
  · intro h1 h2
    unfold connect_begin
    simp [h1, h2]
  · intro h1 h2
    refine ⟨hbegin h1 h2, ?_⟩
    rw [hbegin h1 h2]
    rfl
  · intro c2
    cases o <;> rfl
  · intro h1 h2
    rw [hbegin h1 h2]
    constructor
    · unfold connect_begin
      simp
    · unfold connect_begin
      simp

/-- C2 witness: two `connect()` calls on a fresh connection before any
CONNECTED frame: one transport task, the second call joins, and the read
loop's CONNECTED frame resolves the single stored future. -/
theorem connect_idempotent_spec_witness :
    connect_begin connSample =
      ({ state := ConnectionState.connecting, connected_future := true,
         transport_tasks := 1 }, ConnectStep.startAndAwait) ∧
    (connect_begin (connect_begin connSample).1).1.transport_tasks = 1 ∧
    (connect_begin (connect_begin connSample).1).2 = ConnectStep.awaitExisting ∧
    (connect_finish (connect_begin connSample).1 ConnectStep.startAndAwait
      ConnectOutcome.success).1.state = ConnectionState.connected := by
  have h := connect_idempotent_spec connSample ConnectOutcome.success
  refine ⟨(h.2.2.1 (by decide) (by decide)).1, (h.2.2.2.2 (by decide) (by decide)).1,
    (h.2.2.2.2 (by decide) (by decide)).2, (h.2.2.1 (by decide) (by decide)).2⟩

/-- C3 (code bug): `attach()` on a non-attached channel always evaluates
`ConnectionState.DISCONNECTED`, which is not a member of the `ConnectionState`
enum of `connection.py`, so it raises `AttributeError` — not the
`AblyException` invalid-state error the claim (and the method's own
docstring) describe. Shown on a fresh channel with a closed connection, and
for every connection state. -/
theorem attach_raises_attribute_error :
    attach_begin (chSample ChannelState.initialized) ConnectionState.closed
      ConnectionState.closed = Except.error (PyError.attributeError "DISCONNECTED") ∧
    (∀ connState cm : ConnectionState,
      attach_begin (chSample ChannelState.initialized) connState cm =
        Except.error (PyError.attributeError "DISCONNECTED")) := by
  constructor
  · rfl
  · intro connState cm
    rfl

/-- C4 (code bug): `detach()` always evaluates `ConnectionState.FAILED`,
which is not a member of the `ConnectionState` enum of `connection.py`, so a
`detach()` on a Suspended channel with a connected connection raises
`AttributeError` instead of transitioning directly to Detached. -/
theorem detach_raises_attribute_error :
    detach_begin (chSample ChannelState.suspended) ConnectionState.connected
      ConnectionState.connected = Except.error (PyError.attributeError "FAILED") ∧
    (∀ connState cm : ConnectionState,
      detach_begin (chSample ChannelState.suspended) connState cm =
        Except.error (PyError.attributeError "FAILED")) := by
  constructor
  · rfl
  · intro connState cm
    rfl

/-- C8: the continuation of `detach()` after awaiting the internal state
change returns on a resulting Detached; raises the superseded-by-attach
conflict error on a resulting Attaching; and on any other resulting state
raises the reason carried in the `ChannelStateChange`. -/
theorem detach_settle_spec (sc : ChannelStateChange) :
    (sc.current = ChannelState.detached → detach_settle sc = Except.ok ()) ∧
    (sc.current = ChannelState.attaching → detach_settle sc =
      Except.error (PyError.ablyException
        "Detach request superseded by a subsequent attach request" 90000 409)) ∧
    (sc.current ≠ ChannelState.detached → sc.current ≠ ChannelState.attaching →
      ∀ r : AblyError, sc.reason = some r →
        detach_settle sc = Except.error (PyError.ablyException r.message r.statusCode r.code)) := by
  refine ⟨?_, ?_, ?_⟩
  · intro h
    unfold detach_settle
    simp [h]
  · intro h
    have hne : ChannelState.attaching ≠ ChannelState.detached := by decide
    unfold detach_settle
    rw [h]
    simp
  · intro h1 h2 r hr
    unfold detach_settle raise_reason
    simp [h1, h2, hr]

/-- A concrete state change received by a waiting `detach()` call. -/
def scSample (cur : ChannelState) (reason : Option AblyError) : ChannelStateChange :=
  { previous := ChannelState.detaching
    current := cur
    resumed := some false
    reason := reason }

/-- C8 witness: the three outcomes at concrete state changes. -/
theorem detach_settle_spec_witness :
    detach_settle (scSample ChannelState.detached none) = Except.ok () ∧
    detach_settle (scSample ChannelState.attaching none) =
      Except.error (PyError.ablyException
        "Detach request superseded by a subsequent attach request" 90000 409) ∧
    detach_settle (scSample ChannelState.suspended (some attachTimeoutError)) =
      Except.error (PyError.ablyException "Channel attach timed out" 408 90007) := by
  refine ⟨?_, ?_, ?_⟩
  · exact (detach_settle_spec _).1 rfl
  · exact (detach_settle_spec _).2.1 rfl
  · exact (detach_settle_spec (scSample ChannelState.suspended (some attachTimeoutError))).2.2
      (by decide) (by decide) attachTimeoutError rfl

/-- Storing an inbound channel serial never changes the channel's state. -/
theorem serial_update_state (c : Channel) (m : InMsg) :
    (serial_update c m).state = c.state := by
  unfold serial_update
  split <;> rfl

/-- C9: an inbound ATTACHED frame received while Attached with the resumed
flag cleared leaves the state untouched and emits one `update` event whose
change has `previous` equal to `current` (both Attached); received while
Attaching it transitions the channel to Attached carrying the frame's
resumed value; in any other state it changes no state. -/
theorem on_message_attached_spec (c : Channel) (m : InMsg)
    (ha : m.action = some ProtocolMessageAction.attached) :
    (c.state = ChannelState.attached → ¬ optBoolTruthy (msg_resumed m) →
      (on_message c m).1.state = ChannelState.attached ∧
      (on_message c m).2 = [Emission.toPublic "update"
        { previous := ChannelState.attached, current := ChannelState.attached,
          resumed := msg_resumed m, reason := m.error }]) ∧
    (c.state = ChannelState.attaching →
      (on_message c m).1.state = ChannelState.attached ∧
      (on_message c m).2 = [Emission.toPublic "attached"
        { previous := ChannelState.attaching, current := ChannelState.attached,
          resumed := msg_resumed m, reason := none },
       Emission.toInternal "attached"
        { previous := ChannelState.attaching, current := ChannelState.attached,
          resumed := msg_resumed m, reason := none }]) ∧
    (c.state ≠ ChannelState.attached → c.state ≠ ChannelState.attaching →
      (on_message c m).1.state = c.state) := by
  have hs := serial_update_state c m
  refine ⟨?_, ?_, ?_⟩
  · intro h hr
    unfold on_message
    rw [ha]
    simp only [hs, h, hr]
    simp [hs, h]
  · intro h
    have hne : ChannelState.attaching ≠ ChannelState.attached := by decide
    have hn := (notify_state_effect (serial_update c m) ChannelState.attached
      none (msg_resumed m)).1 (by rw [hs, h]; decide)
    unfold on_message
    rw [ha]
    simp only [hs, h, hne]
    rw [hs, h] at hn
    simp [hn.1, hn.2, hne, ChannelState.value]
  · intro h1 h2
    unfold on_message
    rw [ha]
    simp [hs, h1, h2]

/-- A concrete inbound ATTACHED frame with no flags (so `resumed` is `None`,
falsy) and no error. -/
def attachedMsgSample : InMsg :=
  { action := some ProtocolMessageAction.attached
    channelSerial := none
    flags := none
    error := none
    messages := [] }

/-- C9 witness: the update-event case and the Attaching transition case on
concrete channels and a concrete ATTACHED frame. -/
theorem on_message_attached_spec_witness :
    (on_message (chSample ChannelState.attached) attachedMsgSample).1.state =
      ChannelState.attached ∧
    (on_message (chSample ChannelState.attached) attachedMsgSample).2 =
      [Emission.toPublic "update"
        { previous := ChannelState.attached, current := ChannelState.attached,
          resumed := none, reason := none }] ∧
    (on_message (chSample ChannelState.attaching) attachedMsgSample).1.state =
      ChannelState.attached := by
  have h1 := (on_message_attached_spec (chSample ChannelState.attached)
    attachedMsgSample rfl).1 (by decide) (by decide)
  have h2 := (on_message_attached_spec (chSample ChannelState.attaching)
    attachedMsgSample rfl).2.1 (by decide)
  exact ⟨h1.1, h1.2, h2.1⟩

/-- C10: `subscribe()` with no arguments, and `subscribe()` with a single
string argument, raise `IndexError` from the variadic argument access; a
`ValueError` is only ever raised when a first argument is present and, when
that first argument is a string, a second argument is present as well. -/
theorem subscribe_args_index_error_spec :
    subscribe_args [] = Except.error PyError.indexError ∧
    (∀ s : String, subscribe_args [PyVal.pyStr s] = Except.error PyError.indexError) ∧
    (∀ (args : List PyVal) (msg : String),
      subscribe_args args = Except.error (PyError.valueError msg) →
      0 < args.length ∧
        ∀ (s : String) (rest : List PyVal),
          args = PyVal.pyStr s :: rest → 2 ≤ args.length) := by
  refine ⟨rfl, fun s => rfl, ?_⟩
  intro args msg h
  match args with
  | [] => simp [subscribe_args] at h
  | a0 :: rest =>
    refine ⟨by simp, ?_⟩
    intro s rest2 heq
    rw [heq] at h ⊢
    match rest2 with
    | [] => simp [subscribe_args] at h
    | b :: r => simp

/-- C10 witness: the two `IndexError` inputs, and a `ValueError` input with a
first argument present. -/
theorem subscribe_args_index_error_spec_witness :
    subscribe_args [] = Except.error PyError.indexError ∧
    subscribe_args [PyVal.pyStr "event"] = Except.error PyError.indexError ∧
    0 < [PyVal.pyNone].length := by
  refine ⟨subscribe_args_index_error_spec.1, subscribe_args_index_error_spec.2.1 "event", ?_⟩
  exact (subscribe_args_index_error_spec.2.2 [PyVal.pyNone]
    "invalid subscribe arguments" rfl).1

end Ably
